import Mathlib

/-!
Verification of the Financial-AI-Agent repository (src/main.py) against its
natural-language specification.

The Python program is shallowly embedded: Python floats become `ℚ`, the
fixed category dictionary becomes the list `validCategories` together with
total functions `String → ℚ` for the running totals (absent dictionary
entries default to `0`, matching `dict.get(key, 0)`), and code that raises
an exception is modelled as returning `Except String _`.  Advice strings
are modelled by inductive message tags (one constructor per fixed message
of the source); their exact display text is presentation-layer and carries
no logic.
-/

/-- A point in time, restricted to the fields the program inspects
(`t.date.year` and `t.date.month`). -/
structure DateTime where
  year : Int
  month : Nat
deriving DecidableEq, Repr

/-- Python dataclass `Transaction` (src/main.py lines 10-16). -/
structure Transaction where
  date : DateTime
  amount : ℚ
  category : String
  description : String
  transaction_type : String
deriving DecidableEq, Repr

/-- The fixed key set of `BudgetManager.__init__`'s `categories` dictionary
(lines 20-35), in insertion order.  No operation ever adds or removes a key,
so this set is the category registry. -/
def validCategories : List String :=
  ["Housing", "Transportation", "Food", "Utilities", "Healthcare",
   "Entertainment", "Savings", "Income", "Other", "mortgage_interest",
   "charitable_contributions", "medical_expenses", "child_care", "education"]

/-- State of a `BudgetManager` (lines 18-38): `spend` is the value part of
the `categories` dictionary (cumulative totals, all keys start at 0),
`transactions` the append-only ledger, `monthly_budget` the budget-target
dictionary read through `get_budget`'s default of 0. -/
structure BudgetManager where
  spend : String → ℚ
  transactions : List Transaction
  monthly_budget : String → ℚ

/-- `BudgetManager.__init__`: every cumulative total 0, empty ledger,
empty budget dictionary. -/
def BudgetManager.init : BudgetManager :=
  { spend := fun _ => 0, transactions := [], monthly_budget := fun _ => 0 }

/-- `BudgetManager.set_budget` (lines 40-44). -/
def setBudget (bm : BudgetManager) (category : String) (amount : ℚ) :
    Except String BudgetManager :=
  if category ∈ validCategories then
    .ok { bm with monthly_budget := fun x => if x = category then amount else bm.monthly_budget x }
  else
    .error ("Invalid category: " ++ category)

/-- `BudgetManager.add_transaction` (lines 49-69): reject unknown
categories before any state change, append the transaction, then post the
amount to the category's cumulative total for `'expense'` and to
`'Income'`'s total for every other `transaction_type`. -/
def addTransaction (bm : BudgetManager) (amount : ℚ) (category description : String)
    (transaction_type : String) (transaction_date : DateTime) :
    Except String BudgetManager :=
  if category ∉ validCategories then
    .error ("Invalid category: " ++ category)
  else
    .ok { bm with
      transactions := bm.transactions ++
        [{ date := transaction_date, amount := amount, category := category,
           description := description, transaction_type := transaction_type }],
      spend :=
        if transaction_type = "expense" then
          fun x => if x = category then bm.spend x + amount else bm.spend x
        else
          fun x => if x = "Income" then bm.spend x + amount else bm.spend x }

/-- The per-category breakdown entry of `get_monthly_report` (lines 87-98). -/
structure CategoryBreakdown where
  total : ℚ
  count : Nat
  budget : ℚ
  txns : List (DateTime × ℚ × String)
deriving DecidableEq, Repr

/-- Return shape of `get_monthly_report` (lines 77-82). -/
structure MonthlyReport where
  total_income : ℚ
  total_expenses : ℚ
  transactions_by_category : List (String × CategoryBreakdown)
  savings_rate : ℚ
deriving DecidableEq, Repr

/-- `BudgetManager.get_monthly_report` (lines 71-103): filter the ledger to
the given year/month, sum income- and expense-typed amounts, build a
breakdown entry for every registry category with at least one matching
transaction, and set `savings_rate` by the guarded formula of lines
100-101. -/
def getMonthlyReport (bm : BudgetManager) (year : Int) (month : Nat) : MonthlyReport :=
  let monthly := bm.transactions.filter
    (fun t => t.date.year == year && t.date.month == month)
  let total_income :=
    ((monthly.filter (fun t => t.transaction_type == "income")).map (fun t => t.amount)).sum
  let total_expenses :=
    ((monthly.filter (fun t => t.transaction_type == "expense")).map (fun t => t.amount)).sum
  { total_income := total_income,
    total_expenses := total_expenses,
    transactions_by_category :=
      validCategories.filterMap (fun c =>
        let ct := monthly.filter (fun t => t.category == c)
        if ct.isEmpty then none
        else some (c,
          { total := (ct.map (fun t => t.amount)).sum,
            count := ct.length,
            budget := bm.monthly_budget c,
            txns := ct.map (fun t => (t.date, t.amount, t.description)) })),
    savings_rate :=
      if total_income > 0 then (total_income - total_expenses) / total_income * 100
      else 0 }

/-- One value of the `get_budget_status` result dictionary (lines 111-116). -/
structure BudgetStatusEntry where
  budget : ℚ
  spent : ℚ
  remaining : ℚ
  percentage_used : ℚ
deriving DecidableEq, Repr

/-- `BudgetManager.get_budget_status` (lines 105-117): one entry per
registry category whose budget target is strictly positive. -/
def getBudgetStatus (bm : BudgetManager) : List (String × BudgetStatusEntry) :=
  validCategories.filterMap (fun c =>
    let budget := bm.monthly_budget c
    let spent := bm.spend c
    if budget > 0 then
      some (c,
        { budget := budget, spent := spent, remaining := budget - spent,
          percentage_used := if budget > 0 then spent / budget * 100 else 0 })
    else none)

/-- The bracket table of `TaxAssistant.__init__` (lines 174-182):
`(lower, upper)` pairs with a marginal rate; `none` stands for the source's
`float('inf')` upper bound. -/
def taxBrackets : List ((ℚ × Option ℚ) × ℚ) :=
  [((0, some 9950), 10/100),
   ((9951, some 40525), 12/100),
   ((40526, some 86375), 22/100),
   ((86376, some 164925), 24/100),
   ((164926, some 209425), 32/100),
   ((209426, some 523600), 35/100),
   ((523601, none), 37/100)]

/-- `TaxAssistant.standard_deduction` (line 183). -/
def standardDeduction : ℚ := 12550

/-- `TaxAssistant.calculate_tax_liability` (lines 185-191).
`min taxable_income inf = taxable_income` models the unbounded bracket. -/
def calculate_tax_liability (income : ℚ) : ℚ :=
  let taxable_income := max (income - standardDeduction) 0
  (taxBrackets.map (fun b =>
    if taxable_income > b.1.1 then
      ((match b.1.2 with
        | some upper => min taxable_income upper
        | none => taxable_income) - b.1.1) * b.2
    else 0)).sum

/-- Tags for the fixed advice strings of `TaxAssistant.provide_tax_advice`
(lines 197-213); `liability` and `effectiveRate` carry the numbers the
source interpolates into the text. -/
inductive TaxMsg where
  | liability (income tax : ℚ)
  | effectiveRate (rate : ℚ)
  | mortgageInterest
  | charitable
  | medical
  | childCare
  | education
  | keepReceipts
  | deadline
deriving DecidableEq, Repr

/-- `TaxAssistant.provide_tax_advice` (lines 193-215).  Line 198 divides
`tax_liability / income` with no guard, so `income = 0` raises Python's
`ZeroDivisionError`; that exception is modelled by the `.error` branch.
The expense dictionary is read through `dict.get(key, 0)`, modelled as a
total function. -/
def provide_tax_advice (income : ℚ) (expenses : String → ℚ) :
    Except String (List TaxMsg) :=
  let tax_liability := calculate_tax_liability income
  if income = 0 then .error "ZeroDivisionError"
  else
    .ok ([TaxMsg.liability income tax_liability,
          TaxMsg.effectiveRate (tax_liability / income * 100)]
      ++ (if expenses "mortgage_interest" > 0 then [TaxMsg.mortgageInterest] else [])
      ++ (if expenses "charitable_contributions" > 0 then [TaxMsg.charitable] else [])
      ++ (if expenses "medical_expenses" > 75/1000 * income then [TaxMsg.medical] else [])
      ++ (if expenses "child_care" > 0 then [TaxMsg.childCare] else [])
      ++ (if expenses "education" > 0 then [TaxMsg.education] else [])
      ++ [TaxMsg.keepReceipts, TaxMsg.deadline])

/-- Tags for the fixed advice strings of
`InvestmentAdvisor.provide_investment_advice` (lines 136-170);
`highRates` carries the interest rate the source interpolates. -/
inductive InvMsg where
  | prompt
  | caution
  | riskLow
  | riskMedium
  | riskHigh
  | bull
  | bear
  | highRates (rate : ℚ)
  | retirement
  | shortTerm
deriving DecidableEq, Repr

/-- State of an `InvestmentAdvisor` (lines 119-134): the optional user
profile plus the market snapshot drawn once at construction (the random
draw itself is an external collaborator; its two consumed fields are plain
state here). -/
structure InvestmentAdvisor where
  risk_tolerance : Option String
  investment_goals : Option String
  stock_market : String
  interest_rates : ℚ

/-- `InvestmentAdvisor.provide_investment_advice` (lines 136-170): prompt
if either profile field is unset; a lone caution if `savings_rate < 10`;
otherwise the appended sequence of rule messages in source order. -/
def provide_investment_advice (adv : InvestmentAdvisor) (report : MonthlyReport) :
    List InvMsg :=
  if adv.risk_tolerance = none ∨ adv.investment_goals = none then [InvMsg.prompt]
  else if report.savings_rate < 10 then [InvMsg.caution]
  else
    (if adv.risk_tolerance = some "low" then [InvMsg.riskLow]
     else if adv.risk_tolerance = some "medium" then [InvMsg.riskMedium]
     else if adv.risk_tolerance = some "high" then [InvMsg.riskHigh]
     else [])
    ++ (if adv.stock_market = "bull" then [InvMsg.bull]
        else if adv.stock_market = "bear" then [InvMsg.bear]
        else [])
    ++ (if adv.interest_rates > 3 then [InvMsg.highRates adv.interest_rates] else [])
    ++ (if adv.investment_goals = some "retirement" then [InvMsg.retirement]
        else if adv.investment_goals = some "short_term" then [InvMsg.shortTerm]
        else [])

/-- Spec-side (claim C9): the single message keyed by `risk_tolerance`,
for tolerances drawn from the documented domain low/medium/high. -/
def riskMsgOf (rt : String) : InvMsg :=
  if rt = "low" then InvMsg.riskLow
  else if rt = "medium" then InvMsg.riskMedium
  else InvMsg.riskHigh

/-- Spec-side (claim C9): bull- or bear-market message; none otherwise. -/
def marketMsgOf (sm : String) : List InvMsg :=
  if sm = "bull" then [InvMsg.bull] else if sm = "bear" then [InvMsg.bear] else []

/-- Spec-side (claim C9): goals message for retirement or short_term;
none for any other goal value. -/
def goalsMsgOf (g : String) : List InvMsg :=
  if g = "retirement" then [InvMsg.retirement]
  else if g = "short_term" then [InvMsg.shortTerm]
  else []

/-- Whether a taxable amount `x` falls inside bracket `b`, reading the
table's `(lower, upper)` ranges as inclusive and `none` as no upper
bound. -/
def inBracket (x : ℚ) (b : (ℚ × Option ℚ) × ℚ) : Bool :=
  decide (b.1.1 ≤ x) &&
    (match b.1.2 with
     | some u => decide (x ≤ u)
     | none => true)

/-- The brackets of the fixed table containing a given taxable amount. -/
def bracketsContaining (x : ℚ) : List ((ℚ × Option ℚ) × ℚ) :=
  taxBrackets.filter (inBracket x)

/-- Adjacency of two table rows: the first row is bounded and its range
ends immediately below where the second row's range begins. -/
def adjacentBrackets (b1 b2 : (ℚ × Option ℚ) × ℚ) : Prop :=
  b1.1.2 = some (b2.1.1 - 1)

/-- A two-transaction sample state (one May-2024 income of 5000, one
May-2024 expense of 1500) used to instantiate report theorems. -/
def bmSample : BudgetManager :=
  { spend := fun _ => 0,
    transactions :=
      [{ date := ⟨2024, 5⟩, amount := 5000, category := "Income", description := "Salary",
         transaction_type := "income" },
       { date := ⟨2024, 5⟩, amount := 1500, category := "Housing", description := "Rent",
         transaction_type := "expense" }],
    monthly_budget := fun _ => 0 }

/-- A transaction dated outside May 2024, used to instantiate the
window-invariance theorem. -/
def tOutside : Transaction :=
  { date := ⟨2023, 1⟩, amount := 100, category := "Food", description := "x",
    transaction_type := "expense" }

/-- A state whose only budget target is the negative value -100 on
`Housing`, used to refute claim C7 as stated. -/
def bmNegTarget : BudgetManager :=
  { spend := fun _ => 0, transactions := [],
    monthly_budget := fun c => if c = "Housing" then -100 else 0 }

/-- A state with target 1600 and cumulative spend 1500 on `Housing`,
used to instantiate the budget-status theorem. -/
def bmStatusSample : BudgetManager :=
  { spend := fun c => if c = "Housing" then 1500 else 0,
    transactions := [],
    monthly_budget := fun c => if c = "Housing" then 1600 else 0 }

/-- A sample report (income 5000, expenses 2500, savings rate 50) for
instantiating the investment-advice theorem. -/
def reportEx : MonthlyReport :=
  { total_income := 5000, total_expenses := 2500, transactions_by_category := [],
    savings_rate := 50 }

/-- A fully-profiled advisor in a bull market with rate 4, for
instantiating the investment-advice theorem. -/
def advEx : InvestmentAdvisor :=
  { risk_tolerance := some "medium", investment_goals := some "retirement",
    stock_market := "bull", interest_rates := 4 }

/-- C1: the spec demands that the effective-tax-rate computation on
`income = 0` be guarded and return the full advice list with a placeholder
rate.  The code has no guard: `tax_liability / income` on line 198 raises
`ZeroDivisionError` for `income = 0`, so `provide_tax_advice` fails instead
of returning advice. -/
theorem C1_zero_income_tax_advice_raises :
    provide_tax_advice 0 (fun _ => 0) = .error "ZeroDivisionError" := by
  rfl

/-- C2, counterexample: the claim asserts `tax_liability(9950) = 995.0`,
but line 186 subtracts the standard deduction of 12550 first, so taxable
income is `max (9950 - 12550) 0 = 0` and the tax is 0, not 995. -/
theorem C2_tax_at_9950_is_zero :
    calculate_tax_liability 9950 = 0 ∧ calculate_tax_liability 9950 ≠ 995 := by
  have h : calculate_tax_liability 9950 = 0 := by
    simp only [calculate_tax_liability, taxBrackets, standardDeduction, List.map, List.sum,
      List.foldr]
    norm_num
  refine ⟨h, ?_⟩
  rw [h]
  norm_num

/-- C2, amended: `tax_liability(0) = 0` holds; `tax_liability(9950) = 0`
(the standard deduction wipes out the income); the 10%-bracket boundary
value 995.0 is reached at income `9950 + 12550 = 22500`, whose taxable
income is exactly 9950. -/
theorem C2_tax_boundary_values :
    calculate_tax_liability 0 = 0 ∧ calculate_tax_liability 9950 = 0 ∧
      calculate_tax_liability 22500 = 995 := by
  refine ⟨?_, ?_, ?_⟩ <;>
    · simp only [calculate_tax_liability, taxBrackets, standardDeduction, List.map, List.sum,
        List.foldr]
      norm_num [max_def, min_def]

/-- C3: posting an expense of `a ≥ 0` against a registered category `c`
adds exactly `a` to `c`'s cumulative total and leaves every other
category's total unchanged; posting an income of `a` adds `a` to the
`Income` total and never changes `c`'s total unless `c = "Income"`. -/
theorem C3_expense_income_posting (bm : BudgetManager) (a : ℚ) (c d : String)
    (dt : DateTime) (hc : c ∈ validCategories) (ha : 0 ≤ a) :
    (∃ bm2, addTransaction bm a c d "expense" dt = .ok bm2 ∧
      bm2.spend c = bm.spend c + a ∧
      ∀ c2, c2 ≠ c → bm2.spend c2 = bm.spend c2) ∧
    (∃ bm2, addTransaction bm a c d "income" dt = .ok bm2 ∧
      bm2.spend "Income" = bm.spend "Income" + a ∧
      (c ≠ "Income" → bm2.spend c = bm.spend c)) := by
  unfold addTransaction
  simp only [if_neg (not_not_intro hc)]
  constructor
  · refine ⟨_, rfl, ?_, ?_⟩
    · simp only [if_pos rfl]
      simp
    · intro c2 h2
      simp only [if_pos rfl]
      simp [h2]
  · refine ⟨_, rfl, ?_, ?_⟩
    · simp only [if_neg (by decide : ¬ ("income" : String) = "expense")]
      simp
    · intro h2
      simp only [if_neg (by decide : ¬ ("income" : String) = "expense")]
      simp [h2]

/-- Witness for C3 at the initial state, amount 25, category `Food`. -/
theorem C3_expense_income_posting_witness :
    ("Food" ∈ validCategories ∧ (0 : ℚ) ≤ 25) ∧
    ((∃ bm2,
        addTransaction BudgetManager.init 25 "Food" "Groceries" "expense" ⟨2024, 5⟩ = .ok bm2 ∧
        bm2.spend "Food" = BudgetManager.init.spend "Food" + 25 ∧
        ∀ c2, c2 ≠ "Food" → bm2.spend c2 = BudgetManager.init.spend c2) ∧
     (∃ bm2,
        addTransaction BudgetManager.init 25 "Food" "Groceries" "income" ⟨2024, 5⟩ = .ok bm2 ∧
        bm2.spend "Income" = BudgetManager.init.spend "Income" + 25 ∧
        ("Food" ≠ "Income" → bm2.spend "Food" = BudgetManager.init.spend "Food"))) :=
  ⟨⟨by decide, by norm_num⟩,
   C3_expense_income_posting BudgetManager.init 25 "Food" "Groceries" ⟨2024, 5⟩
     (by decide) (by norm_num)⟩

/-- C4: `add_transaction` with a category outside the registry fails with
the invalid-category error, and in particular never produces a successor
state: the ledger and every cumulative total are untouched (the check on
line 51 precedes every mutation). -/
theorem C4_invalid_category_atomic (bm : BudgetManager) (a : ℚ) (c d ty : String)
    (dt : DateTime) (hc : c ∉ validCategories) :
    addTransaction bm a c d ty dt = .error ("Invalid category: " ++ c) ∧
    ∀ bm2, addTransaction bm a c d ty dt ≠ .ok bm2 := by
  unfold addTransaction
  rw [if_pos hc]
  exact ⟨rfl, fun bm2 h => by cases h⟩

/-- Witness for C4 with the unregistered category `Groceries`. -/
theorem C4_invalid_category_atomic_witness :
    ("Groceries" ∉ validCategories) ∧
    (addTransaction BudgetManager.init 10 "Groceries" "d" "refund" ⟨2024, 1⟩ =
        .error ("Invalid category: " ++ "Groceries") ∧
     ∀ bm2, addTransaction BudgetManager.init 10 "Groceries" "d" "refund" ⟨2024, 1⟩ ≠
        .ok bm2) :=
  ⟨by decide,
   C4_invalid_category_atomic BudgetManager.init 10 "Groceries" "d" "refund" ⟨2024, 1⟩
     (by decide)⟩

/-- C10: for a registered category and any `transaction_type` other than
the exact string `"expense"` (`"Expense"`, `"refund"`, ...), the call is
accepted, the transaction is appended with that type stored unchanged, and
the amount is credited to `Income`'s cumulative total, not the named
category's (line 66's equality test only recognises `'expense'`; every
other value takes the `else` branch of line 68). -/
theorem C10_nonexpense_credited_to_income (bm : BudgetManager) (a : ℚ) (c d ty : String)
    (dt : DateTime) (hc : c ∈ validCategories) (hty : ty ≠ "expense") :
    ∃ bm2, addTransaction bm a c d ty dt = .ok bm2 ∧
      bm2.transactions = bm.transactions ++
        [{ date := dt, amount := a, category := c, description := d,
           transaction_type := ty }] ∧
      bm2.spend "Income" = bm.spend "Income" + a ∧
      (c ≠ "Income" → bm2.spend c = bm.spend c) := by
  unfold addTransaction
  simp only [if_neg (not_not_intro hc)]
  refine ⟨_, rfl, rfl, ?_, ?_⟩
  · simp only [if_neg hty]
    simp
  · intro h2
    simp only [if_neg hty]
    simp [h2]

/-- Witness for C10 with the capitalised type `Expense` against `Food`. -/
theorem C10_nonexpense_credited_to_income_witness :
    ("Food" ∈ validCategories ∧ ("Expense" : String) ≠ "expense") ∧
    (∃ bm2, addTransaction BudgetManager.init 7 "Food" "d" "Expense" ⟨2024, 2⟩ = .ok bm2 ∧
      bm2.transactions = BudgetManager.init.transactions ++
        [{ date := ⟨2024, 2⟩, amount := 7, category := "Food", description := "d",
           transaction_type := "Expense" }] ∧
      bm2.spend "Income" = BudgetManager.init.spend "Income" + 7 ∧
      ("Food" ≠ "Income" → bm2.spend "Food" = BudgetManager.init.spend "Food")) :=
  ⟨⟨by decide, by decide⟩,
   C10_nonexpense_credited_to_income BudgetManager.init 7 "Food" "d" "Expense" ⟨2024, 2⟩
     (by decide) (by decide)⟩

/-- Helper: the monthly report depends on the state only through the
budget-target map and the ledger's restriction to the report window. -/
theorem getMonthlyReport_congr (bm1 bm2 : BudgetManager) (y : Int) (m : Nat)
    (hb : bm1.monthly_budget = bm2.monthly_budget)
    (ht : bm1.transactions.filter (fun t => t.date.year == y && t.date.month == m) =
          bm2.transactions.filter (fun t => t.date.year == y && t.date.month == m)) :
    getMonthlyReport bm1 y m = getMonthlyReport bm2 y m := by
  unfold getMonthlyReport
  rw [hb, ht]

/-- C5: for every state and period, `savings_rate` equals
`(total_income - total_expenses) / total_income * 100` whenever
`total_income > 0`, and equals 0 whenever `total_income = 0`; the
computation is total, so no error is possible. -/
theorem C5_savings_rate (bm : BudgetManager) (y : Int) (m : Nat) :
    ((getMonthlyReport bm y m).total_income > 0 →
      (getMonthlyReport bm y m).savings_rate =
        ((getMonthlyReport bm y m).total_income -
          (getMonthlyReport bm y m).total_expenses) /
          (getMonthlyReport bm y m).total_income * 100) ∧
    ((getMonthlyReport bm y m).total_income = 0 →
      (getMonthlyReport bm y m).savings_rate = 0) := by
  constructor
  · intro h
    simp only [getMonthlyReport] at h ⊢
    rw [if_pos h]
  · intro h
    simp only [getMonthlyReport] at h ⊢
    rw [if_neg]
    rw [h]
    exact lt_irrefl 0

/-- Witness for C5 on the sample state: income 5000, expenses 1500,
savings rate 70. -/
theorem C5_savings_rate_witness :
    (getMonthlyReport bmSample 2024 5).total_income > 0 ∧
    (getMonthlyReport bmSample 2024 5).savings_rate = 70 := by
  have hpos : (getMonthlyReport bmSample 2024 5).total_income > 0 := by
    simp [getMonthlyReport, bmSample]
  refine ⟨hpos, ?_⟩
  have h := (C5_savings_rate bmSample 2024 5).1 hpos
  rw [h]
  simp [getMonthlyReport, bmSample]
  norm_num

/-- C6: the monthly report is unchanged by transactions outside the
requested year/month, and its `total_income` / `total_expenses` are the
sums of income-typed resp. expense-typed amounts restricted to that
window. -/
theorem C6_report_window_invariance (bm : BudgetManager) (y : Int) (m : Nat)
    (t : Transaction) (ht : ¬(t.date.year = y ∧ t.date.month = m)) :
    getMonthlyReport { bm with transactions := bm.transactions ++ [t] } y m =
      getMonthlyReport bm y m ∧
    (getMonthlyReport bm y m).total_income =
      ((bm.transactions.filter (fun t2 =>
          t2.transaction_type == "income" &&
          (t2.date.year == y && t2.date.month == m))).map (fun t2 => t2.amount)).sum ∧
    (getMonthlyReport bm y m).total_expenses =
      ((bm.transactions.filter (fun t2 =>
          t2.transaction_type == "expense" &&
          (t2.date.year == y && t2.date.month == m))).map (fun t2 => t2.amount)).sum := by
  have hpt : (t.date.year == y && t.date.month == m) = false := by
    have h2 : ¬(t.date.year = y) ∨ ¬(t.date.month = m) := by tauto
    rcases h2 with h | h <;> simp [h]
  refine ⟨?_, ?_, ?_⟩
  · refine getMonthlyReport_congr _ bm y m rfl ?_
    show (bm.transactions ++ [t]).filter _ = _
    rw [List.filter_append]
    simp [List.filter, hpt]
  · simp only [getMonthlyReport, List.filter_filter]
  · simp only [getMonthlyReport, List.filter_filter]

/-- Witness for C6: appending a January-2023 transaction leaves the
May-2024 report of the sample state unchanged. -/
theorem C6_report_window_invariance_witness :
    (¬(tOutside.date.year = 2024 ∧ tOutside.date.month = 5)) ∧
    getMonthlyReport { bmSample with transactions := bmSample.transactions ++ [tOutside] }
        2024 5 =
      getMonthlyReport bmSample 2024 5 :=
  ⟨by decide, (C6_report_window_invariance bmSample 2024 5 tOutside (by decide)).1⟩

/-- C7, counterexample: the claim promises an entry for every category
with a *nonzero* target, but line 110 tests `budget > 0`, so the nonzero
(negative) Housing target -100 produces no entry at all: the status
dictionary is empty. -/
theorem C7_nonzero_negative_target_omitted :
    bmNegTarget.monthly_budget "Housing" = -100 ∧
    bmNegTarget.monthly_budget "Housing" ≠ 0 ∧
    getBudgetStatus bmNegTarget = [] := by
  refine ⟨rfl, by norm_num [bmNegTarget], ?_⟩
  simp [getBudgetStatus, validCategories, bmNegTarget]

/-- C7, amended: the budget status holds an entry — with fields target,
spent, `remaining = target - spent` and
`percentage_used = spent / target * 100` — exactly for the categories
whose target is strictly positive; categories with target ≤ 0 (in
particular target 0) are omitted entirely. -/
theorem C7_budget_status_entries (bm : BudgetManager) (c : String)
    (hc : c ∈ validCategories) :
    (0 < bm.monthly_budget c →
      (c, ({ budget := bm.monthly_budget c,
             spent := bm.spend c,
             remaining := bm.monthly_budget c - bm.spend c,
             percentage_used := bm.spend c / bm.monthly_budget c * 100 } :
        BudgetStatusEntry)) ∈ getBudgetStatus bm) ∧
    (bm.monthly_budget c ≤ 0 → ∀ e, (c, e) ∉ getBudgetStatus bm) := by
  constructor
  · intro h
    unfold getBudgetStatus
    rw [List.mem_filterMap]
    refine ⟨c, hc, ?_⟩
    simp only [if_pos h]
  · intro h e hmem
    unfold getBudgetStatus at hmem
    rw [List.mem_filterMap] at hmem
    obtain ⟨a, ha2, hfa⟩ := hmem
    by_cases hb : 0 < bm.monthly_budget a
    · rw [if_pos hb] at hfa
      have hac : a = c := congrArg Prod.fst (Option.some.inj hfa)
      rw [hac] at hb
      exact absurd hb (not_lt.mpr h)
    · rw [if_neg hb] at hfa
      cases hfa

/-- Witness for the amended C7: Housing with target 1600 and spend 1500
appears with remaining 100 and percentage 93.75 (= 375/4). -/
theorem C7_budget_status_entries_witness :
    ("Housing" ∈ validCategories ∧ 0 < bmStatusSample.monthly_budget "Housing") ∧
    (("Housing", ({ budget := (1600 : ℚ),
                    spent := 1500,
                    remaining := 100,
                    percentage_used := 375/4 } :
      BudgetStatusEntry)) ∈ getBudgetStatus bmStatusSample) := by
  refine ⟨⟨by decide, by norm_num [bmStatusSample]⟩, ?_⟩
  have h := (C7_budget_status_entries bmStatusSample "Housing" (by decide)).1
    (by norm_num [bmStatusSample])
  norm_num [bmStatusSample] at h
  convert h using 3

/-- C8: the bracket table is contiguous and non-overlapping over
whole-dollar taxable amounts — each row's lower bound is one past where
the previous row's inclusive range ends (`List.Chain' adjacentBrackets`),
the last row's upper bound is unbounded (`none`, the source's
`float('inf')`), the first row starts at 0, and consequently every
non-negative integer amount lies in exactly one bracket. -/
theorem C8_bracket_table_contiguous :
    List.Chain' adjacentBrackets taxBrackets ∧
    (taxBrackets.map (fun b => b.1.2)).getLast? = some none ∧
    (taxBrackets.map (fun b => b.1.1)).head? = some 0 ∧
    ∀ x : ℤ, 0 ≤ x → (bracketsContaining (x : ℚ)).length = 1 := by
  refine ⟨?_, rfl, rfl, ?_⟩
  · simp only [taxBrackets, List.chain'_cons, List.chain'_singleton, adjacentBrackets,
      Option.some.injEq, and_true]
    norm_num
  ·
    intro x hx
    have e0 : ((0 : ℚ) ≤ (x : ℚ)) := by exact_mod_cast hx
    rcases lt_or_le x 9951 with h1 | h1
    · have hin1 : ((x : ℚ) ≤ 9950) := by
        exact_mod_cast (by omega : x ≤ (9950 : ℤ))
      have hl2n : ¬(((9951 : ℚ)) ≤ (x : ℚ)) := by
        exact_mod_cast (by omega : ¬(((9951 : ℤ)) ≤ x))
      have hl3n : ¬(((40526 : ℚ)) ≤ (x : ℚ)) := by
        exact_mod_cast (by omega : ¬(((40526 : ℤ)) ≤ x))
      have hl4n : ¬(((86376 : ℚ)) ≤ (x : ℚ)) := by
        exact_mod_cast (by omega : ¬(((86376 : ℤ)) ≤ x))
      have hl5n : ¬(((164926 : ℚ)) ≤ (x : ℚ)) := by
        exact_mod_cast (by omega : ¬(((164926 : ℤ)) ≤ x))
      have hl6n : ¬(((209426 : ℚ)) ≤ (x : ℚ)) := by
        exact_mod_cast (by omega : ¬(((209426 : ℤ)) ≤ x))
      have hl7n : ¬(((523601 : ℚ)) ≤ (x : ℚ)) := by
        exact_mod_cast (by omega : ¬(((523601 : ℤ)) ≤ x))
      simp only [bracketsContaining, taxBrackets, List.filter, inBracket,
        decide_eq_true e0,
    decide_eq_true hin1,
    decide_eq_false hl2n,
    decide_eq_false hl3n,
    decide_eq_false hl4n,
    decide_eq_false hl5n,
    decide_eq_false hl6n,
    decide_eq_false hl7n,
        Bool.and_true, Bool.true_and, Bool.and_false, Bool.false_and]
      rfl
    rcases lt_or_le x 40526 with h2 | h2
    · have hu1 : ¬((x : ℚ) ≤ 9950) := by
        exact_mod_cast (by omega : ¬(x ≤ (9950 : ℤ)))
      have hl2 : ((9951 : ℚ)) ≤ (x : ℚ) := by
        exact_mod_cast (by omega : (9951 : ℤ) ≤ x)
      have hin2 : ((x : ℚ) ≤ 40525) := by
        exact_mod_cast (by omega : x ≤ (40525 : ℤ))
      have hl3n : ¬(((40526 : ℚ)) ≤ (x : ℚ)) := by
        exact_mod_cast (by omega : ¬(((40526 : ℤ)) ≤ x))
      have hl4n : ¬(((86376 : ℚ)) ≤ (x : ℚ)) := by
        exact_mod_cast (by omega : ¬(((86376 : ℤ)) ≤ x))
      have hl5n : ¬(((164926 : ℚ)) ≤ (x : ℚ)) := by
        exact_mod_cast (by omega : ¬(((164926 : ℤ)) ≤ x))
      have hl6n : ¬(((209426 : ℚ)) ≤ (x : ℚ)) := by
        exact_mod_cast (by omega : ¬(((209426 : ℤ)) ≤ x))
      have hl7n : ¬(((523601 : ℚ)) ≤ (x : ℚ)) := by
        exact_mod_cast (by omega : ¬(((523601 : ℤ)) ≤ x))
      simp only [bracketsContaining, taxBrackets, List.filter, inBracket,
        decide_eq_false hu1,
    decide_eq_true hl2,
    decide_eq_true hin2,
    decide_eq_false hl3n,
    decide_eq_false hl4n,
    decide_eq_false hl5n,
    decide_eq_false hl6n,
    decide_eq_false hl7n,
        Bool.and_true, Bool.true_and, Bool.and_false, Bool.false_and]
      rfl
    rcases lt_or_le x 86376 with h3 | h3
    · have hu1 : ¬((x : ℚ) ≤ 9950) := by
        exact_mod_cast (by omega : ¬(x ≤ (9950 : ℤ)))
      have hu2 : ¬((x : ℚ) ≤ 40525) := by
        exact_mod_cast (by omega : ¬(x ≤ (40525 : ℤ)))
      have hl3 : ((40526 : ℚ)) ≤ (x : ℚ) := by
        exact_mod_cast (by omega : (40526 : ℤ) ≤ x)
      have hin3 : ((x : ℚ) ≤ 86375) := by
        exact_mod_cast (by omega : x ≤ (86375 : ℤ))
      have hl4n : ¬(((86376 : ℚ)) ≤ (x : ℚ)) := by
        exact_mod_cast (by omega : ¬(((86376 : ℤ)) ≤ x))
      have hl5n : ¬(((164926 : ℚ)) ≤ (x : ℚ)) := by
        exact_mod_cast (by omega : ¬(((164926 : ℤ)) ≤ x))
      have hl6n : ¬(((209426 : ℚ)) ≤ (x : ℚ)) := by
        exact_mod_cast (by omega : ¬(((209426 : ℤ)) ≤ x))
      have hl7n : ¬(((523601 : ℚ)) ≤ (x : ℚ)) := by
        exact_mod_cast (by omega : ¬(((523601 : ℤ)) ≤ x))
      simp only [bracketsContaining, taxBrackets, List.filter, inBracket,
        decide_eq_false hu1,
    decide_eq_false hu2,
    decide_eq_true hl3,
    decide_eq_true hin3,
    decide_eq_false hl4n,
    decide_eq_false hl5n,
    decide_eq_false hl6n,
    decide_eq_false hl7n,
        Bool.and_true, Bool.true_and, Bool.and_false, Bool.false_and]
      rfl
    rcases lt_or_le x 164926 with h4 | h4
    · have hu1 : ¬((x : ℚ) ≤ 9950) := by
        exact_mod_cast (by omega : ¬(x ≤ (9950 : ℤ)))
      have hu2 : ¬((x : ℚ) ≤ 40525) := by
        exact_mod_cast (by omega : ¬(x ≤ (40525 : ℤ)))
      have hu3 : ¬((x : ℚ) ≤ 86375) := by
        exact_mod_cast (by omega : ¬(x ≤ (86375 : ℤ)))
      have hl4 : ((86376 : ℚ)) ≤ (x : ℚ) := by
        exact_mod_cast (by omega : (86376 : ℤ) ≤ x)
      have hin4 : ((x : ℚ) ≤ 164925) := by
        exact_mod_cast (by omega : x ≤ (164925 : ℤ))
      have hl5n : ¬(((164926 : ℚ)) ≤ (x : ℚ)) := by
        exact_mod_cast (by omega : ¬(((164926 : ℤ)) ≤ x))
      have hl6n : ¬(((209426 : ℚ)) ≤ (x : ℚ)) := by
        exact_mod_cast (by omega : ¬(((209426 : ℤ)) ≤ x))
      have hl7n : ¬(((523601 : ℚ)) ≤ (x : ℚ)) := by
        exact_mod_cast (by omega : ¬(((523601 : ℤ)) ≤ x))
      simp only [bracketsContaining, taxBrackets, List.filter, inBracket,
        decide_eq_false hu1,
    decide_eq_false hu2,
    decide_eq_false hu3,
    decide_eq_true hl4,
    decide_eq_true hin4,
    decide_eq_false hl5n,
    decide_eq_false hl6n,
    decide_eq_false hl7n,
        Bool.and_true, Bool.true_and, Bool.and_false, Bool.false_and]
      rfl
    rcases lt_or_le x 209426 with h5 | h5
    · have hu1 : ¬((x : ℚ) ≤ 9950) := by
        exact_mod_cast (by omega : ¬(x ≤ (9950 : ℤ)))
      have hu2 : ¬((x : ℚ) ≤ 40525) := by
        exact_mod_cast (by omega : ¬(x ≤ (40525 : ℤ)))
      have hu3 : ¬((x : ℚ) ≤ 86375) := by
        exact_mod_cast (by omega : ¬(x ≤ (86375 : ℤ)))
      have hu4 : ¬((x : ℚ) ≤ 164925) := by
        exact_mod_cast (by omega : ¬(x ≤ (164925 : ℤ)))
      have hl5 : ((164926 : ℚ)) ≤ (x : ℚ) := by
        exact_mod_cast (by omega : (164926 : ℤ) ≤ x)
      have hin5 : ((x : ℚ) ≤ 209425) := by
        exact_mod_cast (by omega : x ≤ (209425 : ℤ))
      have hl6n : ¬(((209426 : ℚ)) ≤ (x : ℚ)) := by
        exact_mod_cast (by omega : ¬(((209426 : ℤ)) ≤ x))
      have hl7n : ¬(((523601 : ℚ)) ≤ (x : ℚ)) := by
        exact_mod_cast (by omega : ¬(((523601 : ℤ)) ≤ x))
      simp only [bracketsContaining, taxBrackets, List.filter, inBracket,
        decide_eq_false hu1,
    decide_eq_false hu2,
    decide_eq_false hu3,
    decide_eq_false hu4,
    decide_eq_true hl5,
    decide_eq_true hin5,
    decide_eq_false hl6n,
    decide_eq_false hl7n,
        Bool.and_true, Bool.true_and, Bool.and_false, Bool.false_and]
      rfl
    rcases lt_or_le x 523601 with h6 | h6
    · have hu1 : ¬((x : ℚ) ≤ 9950) := by
        exact_mod_cast (by omega : ¬(x ≤ (9950 : ℤ)))
      have hu2 : ¬((x : ℚ) ≤ 40525) := by
        exact_mod_cast (by omega : ¬(x ≤ (40525 : ℤ)))
      have hu3 : ¬((x : ℚ) ≤ 86375) := by
        exact_mod_cast (by omega : ¬(x ≤ (86375 : ℤ)))
      have hu4 : ¬((x : ℚ) ≤ 164925) := by
        exact_mod_cast (by omega : ¬(x ≤ (164925 : ℤ)))
      have hu5 : ¬((x : ℚ) ≤ 209425) := by
        exact_mod_cast (by omega : ¬(x ≤ (209425 : ℤ)))
      have hl6 : ((209426 : ℚ)) ≤ (x : ℚ) := by
        exact_mod_cast (by omega : (209426 : ℤ) ≤ x)
      have hin6 : ((x : ℚ) ≤ 523600) := by
        exact_mod_cast (by omega : x ≤ (523600 : ℤ))
      have hl7n : ¬(((523601 : ℚ)) ≤ (x : ℚ)) := by
        exact_mod_cast (by omega : ¬(((523601 : ℤ)) ≤ x))
      simp only [bracketsContaining, taxBrackets, List.filter, inBracket,
        decide_eq_false hu1,
    decide_eq_false hu2,
    decide_eq_false hu3,
    decide_eq_false hu4,
    decide_eq_false hu5,
    decide_eq_true hl6,
    decide_eq_true hin6,
    decide_eq_false hl7n,
        Bool.and_true, Bool.true_and, Bool.and_false, Bool.false_and]
      rfl
    have hu1 : ¬((x : ℚ) ≤ 9950) := by
      exact_mod_cast (by omega : ¬(x ≤ (9950 : ℤ)))
    have hu2 : ¬((x : ℚ) ≤ 40525) := by
      exact_mod_cast (by omega : ¬(x ≤ (40525 : ℤ)))
    have hu3 : ¬((x : ℚ) ≤ 86375) := by
      exact_mod_cast (by omega : ¬(x ≤ (86375 : ℤ)))
    have hu4 : ¬((x : ℚ) ≤ 164925) := by
      exact_mod_cast (by omega : ¬(x ≤ (164925 : ℤ)))
    have hu5 : ¬((x : ℚ) ≤ 209425) := by
      exact_mod_cast (by omega : ¬(x ≤ (209425 : ℤ)))
    have hu6 : ¬((x : ℚ) ≤ 523600) := by
      exact_mod_cast (by omega : ¬(x ≤ (523600 : ℤ)))
    have hl7 : ((523601 : ℚ)) ≤ (x : ℚ) := by
      exact_mod_cast (by omega : (523601 : ℤ) ≤ x)
    simp only [bracketsContaining, taxBrackets, List.filter, inBracket,
      decide_eq_false hu1,
    decide_eq_false hu2,
    decide_eq_false hu3,
    decide_eq_false hu4,
    decide_eq_false hu5,
    decide_eq_false hu6,
    decide_eq_true hl7,
      Bool.and_true, Bool.true_and, Bool.and_false, Bool.false_and]
    rfl

/-- Witness for C8 at the concrete amount 50000 (inside the 22% bracket). -/
theorem C8_bracket_table_contiguous_witness :
    (0 : ℤ) ≤ 50000 ∧ (bracketsContaining ((50000 : ℤ) : ℚ)).length = 1 :=
  ⟨by norm_num, C8_bracket_table_contiguous.2.2.2 50000 (by norm_num)⟩

/-- C9: investment advice follows the source's short-circuit order — an
unset profile yields exactly the prompt message; otherwise a savings rate
below 10 yields exactly the caution message; otherwise the advice is, in
fixed order, the single risk-tolerance message, the bull/bear market
message (none otherwise, in particular none for neutral), the interest-rate
message exactly when the rate exceeds 3, and the goals message for
retirement or short_term (none for other goals). -/
theorem C9_investment_advice_order (adv : InvestmentAdvisor) (r : MonthlyReport) :
    (adv.risk_tolerance = none ∨ adv.investment_goals = none →
      provide_investment_advice adv r = [InvMsg.prompt]) ∧
    (∀ rt g, adv.risk_tolerance = some rt → adv.investment_goals = some g →
      r.savings_rate < 10 → provide_investment_advice adv r = [InvMsg.caution]) ∧
    (∀ rt g, adv.risk_tolerance = some rt → adv.investment_goals = some g →
      rt ∈ (["low", "medium", "high"] : List String) → ¬(r.savings_rate < 10) →
      provide_investment_advice adv r =
        [riskMsgOf rt] ++ marketMsgOf adv.stock_market
          ++ (if adv.interest_rates > 3 then [InvMsg.highRates adv.interest_rates] else [])
          ++ goalsMsgOf g) := by
  refine ⟨?_, ?_, ?_⟩
  · intro h
    unfold provide_investment_advice
    rw [if_pos h]
  · intro rt g h1 h2 h3
    unfold provide_investment_advice
    rw [if_neg (by simp [h1, h2]), if_pos h3]
  · intro rt g h1 h2 hrt h3
    have hrt2 : rt = "low" ∨ rt = "medium" ∨ rt = "high" := by simpa using hrt
    unfold provide_investment_advice
    rw [if_neg (by simp [h1, h2]), if_neg h3]
    rw [h1, h2]
    rcases hrt2 with rfl | rfl | rfl <;>
      simp [riskMsgOf, marketMsgOf, goalsMsgOf]

/-- Witness for C9: the medium/retirement profile in a bull market at rate
4 with savings rate 50 receives the four rule messages in order. -/
theorem C9_investment_advice_order_witness :
    (advEx.risk_tolerance = some "medium" ∧ advEx.investment_goals = some "retirement" ∧
      "medium" ∈ (["low", "medium", "high"] : List String) ∧
      ¬(reportEx.savings_rate < 10)) ∧
    provide_investment_advice advEx reportEx =
      [InvMsg.riskMedium, InvMsg.bull, InvMsg.highRates 4, InvMsg.retirement] := by
  refine ⟨⟨rfl, rfl, by decide, by norm_num [reportEx]⟩, ?_⟩
  have h := (C9_investment_advice_order advEx reportEx).2.2 "medium" "retirement" rfl rfl
    (by decide) (by norm_num [reportEx])
  rw [h]
  rw [if_pos (by norm_num [advEx] : advEx.interest_rates > 3)]
  simp [riskMsgOf, marketMsgOf, goalsMsgOf, advEx]
